import Mathlib

/-!
Verification of the mpdChargedHadrons blast-wave analysis macros.

This file gives a shallow embedding of the repository's own logic
(the blast-wave integrand, the global chi-square combination, the
text-file parameter I/O, the data loaders, the systematic-variation
switch and the per-cell fit-skipping logic) and proves or refutes the
frozen claims about it.

Conventions of the embedding:
  * C `double` values are modelled exactly, as `ℝ` where analytic
    functions (sqrt, sinh, ...) occur and as `ℚ` where the claims need
    concrete evaluation (file I/O, parameter scaling).  Numeric text
    round-trips are modelled at token granularity: a whitespace-
    delimited file is a `List ℚ` of its numeric tokens.
  * `operator>>` follows the C++11 formatted-input semantics observed
    on the reference implementation: an extraction attempted at end of
    file constructs a failed sentry and leaves the target variable
    unmodified, and once the stream is in a failed state every further
    extraction is a no-op.  All files written by this repository end
    in a newline (`endl`), so after the last token is consumed the
    stream is not yet at eof; `eof()` becomes true only after a
    further extraction fails.  The `IStream.failed` flag models
    exactly this (eofbit and failbit are set together here).
  * External ROOT facilities (the numerical integrator, the fitter,
    Bessel functions, `gMinuit->Contour`) are abstracted as function
    parameters; everything the repository itself computes is embedded
    from the source.
-/

namespace MpdBW

/-! ## src/def.h and src/input/def.h: constants -/

/-- `const int PARTS[] = {0, 1, 2, 3, 4, 5};` (src/def.h). -/
def PARTS : List ℤ := [0, 1, 2, 3, 4, 5]

/-- `const int CENTR[] = {0, 1, 2, 3, 4, 5};` (src/def.h). -/
def CENTR : List ℤ := [0, 1, 2, 3, 4, 5]

/-- `double masses[6] = {0.13957061, 0.13957061, 0.493667, 0.493667,
0.938272, 0.938272};` (src/def.h), as reals, indexed by `Fin 6`. -/
noncomputable def masses : Fin 6 → ℝ :=
  ![0.13957061, 0.13957061, 0.493667, 0.493667, 0.938272, 0.938272]

/-- The same `masses[6]` array in the exact (`ℚ`) world, indexed by the
C `int` used in the source; out-of-range indices are irrelevant (the
macros only index with 0..5). -/
def massesQ (i : ℤ) : ℚ :=
  if i = 0 ∨ i = 1 then 0.13957061
  else if i = 2 ∨ i = 3 then 0.493667
  else if i = 4 ∨ i = 5 then 0.938272
  else 0

/-! ## src/input/headers/BlastWave.h: the blast-wave integrand -/

/-- Model of `TMath::ATanH`. -/
noncomputable def ATanH (x : ℝ) : ℝ := Real.log ((1 + x) / (1 - x)) / 2

/-- `bwfitfunc(double *x, double *par)` from
src/input/headers/BlastWave.h.  `x[0]` is the source radius `r`;
`par[0] = constant`, `par[1] = Tf`, `par[2] = beta`, `par[3] = mass`,
`par[4] = pt`.  The Bessel functions `TMath::BesselI0` and
`TMath::BesselK1` are external and are passed in abstractly. -/
noncomputable def bwfitfunc (besselI0 besselK1 : ℝ → ℝ) (r : ℝ) (par : Fin 5 → ℝ) : ℝ :=
  let con := par 0
  let mass := par 3
  let mt := par 4 + mass
  let pt := Real.sqrt (mt * mt - mass * mass)
  let rho := ATanH (par 2) * (r / 13.0) ^ (1 : ℕ)
  con * r * mt
    * besselI0 (pt * Real.sinh rho / par 1)
    * besselK1 (mt * Real.cosh rho / par 1)

/-- `MyIntegFunc::operator()(double *x, double *p)` from
src/input/headers/BlastWave.h.  `fFunc` is the wrapped `TF1` whose
current parameters the call sets (`std::copy(p, p + 4, param);
param[4] = *x; fFunc->SetParameters(param)`); `TF1::Integral(a, b,
eps)` is the external ROOT integrator, abstracted as `integral f a b
eps`.  In the macros `fFunc` always wraps `bwfitfunc`. -/
noncomputable def MyIntegFunc_call (integral : (ℝ → ℝ) → ℝ → ℝ → ℝ → ℝ)
    (fFunc : ℝ → (Fin 5 → ℝ) → ℝ) (x : ℝ) (p : Fin 4 → ℝ) : ℝ :=
  let radius : ℝ := 13.0
  let param : Fin 5 → ℝ := ![p 0, p 1, p 2, p 3, x]
  integral (fun r => fFunc r param) 0.0001 radius 1e-10

/-! ## src/BlastWaveGlobal.C and src/BlastWaveGlobal_all.C:
the joint chi-square objectives -/

/-- `GlobalChi2::operator()(const double *par)` from
src/BlastWaveGlobal.C (three species).  The per-species chi-square
functionals (ROOT `Chi2Function` objects over the loaded data) are
abstract; for each `i < 3` the source builds
`p[i] = {par[2+i], par[0], par[1], masses[2*i]}` and sums. -/
noncomputable def GlobalChi2_3 (fChi2_1 fChi2_2 fChi2_3 : (Fin 4 → ℝ) → ℝ)
    (par : Fin 5 → ℝ) : ℝ :=
  let p : Fin 3 → Fin 4 → ℝ := fun i =>
    ![par ⟨2 + i.val, by omega⟩, par 0, par 1, masses ⟨2 * i.val, by omega⟩]
  fChi2_1 (p 0) + fChi2_2 (p 1) + fChi2_3 (p 2)

/-- `GlobalChi2::operator()(const double *par)` from
src/BlastWaveGlobal_all.C (six species): for each `i < 6` the source
builds `p[i] = {par[2+i], par[0], par[1], masses[i]}` and sums. -/
noncomputable def GlobalChi2_6 (f0 f1 f2 f3 f4 f5 : (Fin 4 → ℝ) → ℝ)
    (par : Fin 8 → ℝ) : ℝ :=
  let p : Fin 6 → Fin 4 → ℝ := fun i =>
    ![par ⟨2 + i.val, by omega⟩, par 0, par 1, masses i]
  f0 (p 0) + f1 (p 1) + f2 (p 2) + f3 (p 3) + f4 (p 4) + f5 (p 5)

/-! ## Claims C1 and C2 -/

/-- **C1.** For every parameter vector `(C, T, beta, m)` and abscissa
`x`, `MyIntegFunc::operator()` returns the numerical integral over the
source radius `r` from `0.0001` to `13.0` of `bwfitfunc`, where the
integrand at `r` is `C * r * mT * BesselI0(pT * sinh(rho) / T) *
BesselK1(mT * cosh(rho) / T)` with `mT = x + m`,
`pT = sqrt(mT^2 - m^2)` and `rho = atanh(beta) * (r / 13.0)`: the
first four parameters of the integrand are copied from the fit
parameters and the fifth is set to `x` before integrating. -/
theorem myIntegFunc_is_radius_integral_of_bwfitfunc
    (integral : (ℝ → ℝ) → ℝ → ℝ → ℝ → ℝ) (besselI0 besselK1 : ℝ → ℝ)
    (C T beta m x : ℝ) :
    MyIntegFunc_call integral (bwfitfunc besselI0 besselK1) x ![C, T, beta, m]
      = integral
          (fun r =>
            C * r * (x + m)
              * besselI0 (Real.sqrt ((x + m) ^ 2 - m ^ 2)
                  * Real.sinh (ATanH beta * (r / 13.0)) / T)
              * besselK1 ((x + m)
                  * Real.cosh (ATanH beta * (r / 13.0)) / T))
          0.0001 13.0 1e-10 := by
  have hm : ((x + m) * (x + m) - m * m) = ((x + m) ^ 2 - m ^ 2) := by ring
  simp only [MyIntegFunc_call, bwfitfunc]
  congr 1
  funext r
  simp [hm]

/-- **C2.** The joint objective `GlobalChi2::operator()(par)` equals
the sum of the per-species chi-square functions, each evaluated with
the same shared temperature `T = par[0]` and flow velocity
`beta = par[1]`, the per-species normalization constant `par[2 + i]`,
and that species' fixed mass — shared across three species
(`masses[0], masses[2], masses[4]`) in the three-function variant and
across six species (`masses[i]`) in the six-function variant. -/
theorem globalChi2_shares_T_beta
    (f0 f1 f2 f3 f4 f5 : (Fin 4 → ℝ) → ℝ) (par5 : Fin 5 → ℝ)
    (par8 : Fin 8 → ℝ) :
    GlobalChi2_3 f0 f1 f2 par5
        = f0 ![par5 2, par5 0, par5 1, masses 0]
          + f1 ![par5 3, par5 0, par5 1, masses 2]
          + f2 ![par5 4, par5 0, par5 1, masses 4] ∧
    GlobalChi2_6 f0 f1 f2 f3 f4 f5 par8
        = f0 ![par8 2, par8 0, par8 1, masses 0]
          + f1 ![par8 3, par8 0, par8 1, masses 1]
          + f2 ![par8 4, par8 0, par8 1, masses 2]
          + f3 ![par8 5, par8 0, par8 1, masses 3]
          + f4 ![par8 6, par8 0, par8 1, masses 4]
          + f5 ![par8 7, par8 0, par8 1, masses 5] := by
  constructor <;> rfl

/-! ## Token-level model of the whitespace-delimited text files

A file is the list of its numeric tokens (`List ℚ`); `endl` and the
blank separator line contribute no tokens.  `IStream.failed` models
`failbit`/`eofbit`: an extraction on an exhausted stream fails and
leaves the target unmodified, and every extraction after a failure is
a no-op (failed sentry). -/

structure IStream where
  toks : List ℚ
  failed : Bool
deriving DecidableEq

/-- One `operator>>` step: returns the new stream and the extracted
token, or `none` when the extraction failed (target left unmodified
by the caller). -/
def readInto (s : IStream) : IStream × Option ℚ :=
  if s.failed then (s, none)
  else
    match s.toks with
    | [] => (⟨[], true⟩, none)
    | t :: ts => (⟨ts, false⟩, some t)

/-- `f >> v` for a `double`/number variable holding `cur`. -/
def readVar (s : IStream) (cur : ℚ) : IStream × ℚ :=
  match readInto s with
  | (s', some t) => (s', t)
  | (s', none) => (s', cur)

/-- `f >> v` for an `int` variable holding `cur`.  The tokens read as
ints by these macros are exact integers, on which `⌊·⌋` is exact. -/
def readVarZ (s : IStream) (cur : ℤ) : IStream × ℤ :=
  match readInto s with
  | (s', some t) => (s', ⌊t⌋)
  | (s', none) => (s', cur)

/-! ## src/WriteReadFiles.h: global-fit parameter I/O (C3) -/

/-- The `paramsGlobal[2][N_CENTR][5]` array, modelled as a total map
(C indexing with `int`s); the macros only touch charges 0..1,
centralities in `CENTR` and parameter slots 0..4. -/
def GStore := ℤ → ℤ → ℕ → ℚ

/-- Pointwise array-cell assignment `paramsGlobal[c][ct][k] = v`. -/
def upd3 (st : GStore) (c ct : ℤ) (k : ℕ) (v : ℚ) : GStore :=
  fun c' ct' k' => if c' = c ∧ ct' = ct ∧ k' = k then v else st c' ct' k'

/-- The tokens emitted by one `WriteGlobalParams(&flag, charge)` call
(src/WriteReadFiles.h, lines 6–26): for each `centr` in `CENTR`, the
line `charge centr paramsGlobal[charge][centr][0..4]`. -/
def writeGlobalTokens (charge : ℤ) (pg : GStore) : List ℚ :=
  (CENTR.map (fun (centr : ℤ) =>
    [(charge : ℚ), (centr : ℚ), pg charge centr 0, pg charge centr 1,
     pg charge centr 2, pg charge centr 3, pg charge centr 4])).flatten

/-- `WriteGlobalParams(bool *isParamsFileExist, int charge, filename)`
acting on the file contents: truncate when the flag is unset, append
(with a token-free blank line) when set; the flag is then set. -/
def WriteGlobalParams (file : List ℚ) (isParamsFileExist : Bool)
    (charge : ℤ) (pg : GStore) : List ℚ × Bool :=
  ((if isParamsFileExist then file ++ writeGlobalTokens charge pg
    else writeGlobalTokens charge pg), true)

/-- The file produced by calling `WriteGlobalParams` on a fresh file
for charge 0 and then for charge 1 (as in src/BlastWaveGlobal.C). -/
def globalRoundTripFile (pg : GStore) : List ℚ :=
  let w0 := WriteGlobalParams [] false 0 pg
  (WriteGlobalParams w0.1 w0.2 1 pg).1

/-- Mutable state of `ReadGlobalParams`: the stream, the `int charge`
local (which persists across lines) and the destination array. -/
structure RGState where
  s : IStream
  charge : ℤ
  pg : GStore

/-- One line of `ReadGlobalParams`:
`txtFile >> charge >> centr >> paramsGlobal[charge][centr][0] >> ... >> [4]`,
where `centr` is the loop variable currently holding `centr0`.  Each
array-cell extraction indexes with the current `charge`/`centr`
values; a failed extraction leaves its target unmodified. -/
def rgLine (st : RGState) (centr0 : ℤ) : RGState :=
  let (s1, charge) := readVarZ st.s st.charge
  let (s2, centr) := readVarZ s1 centr0
  let rd : IStream × GStore → ℕ → IStream × GStore := fun (s, pg) k =>
    match readInto s with
    | (s', some t) => (s', upd3 pg charge centr k t)
    | (s', none) => (s', pg)
  let (s3, pg3) := rd (s2, st.pg) 0
  let (s4, pg4) := rd (s3, pg3) 1
  let (s5, pg5) := rd (s4, pg4) 2
  let (s6, pg6) := rd (s5, pg5) 3
  let (s7, pg7) := rd (s6, pg6) 4
  ⟨s7, charge, pg7⟩

/-- The inner `for (int centr : CENTR)` loop of `ReadGlobalParams`. -/
def rgPass : List ℤ → RGState → RGState
  | [], st => st
  | c :: rest, st => rgPass rest (rgLine st c)

/-- The outer `while (true) { ...; if (txtFile.eof()) break; }` loop.
Fuel bounds the iteration count; with fuel exceeding the token count
the loop always exits via the `eof` break first (a pass that consumes
no token fails and breaks). -/
def rgLoop : ℕ → RGState → RGState
  | 0, st => st
  | fuel + 1, st =>
    let st' := rgPass CENTR st
    if st'.s.failed then st' else rgLoop fuel st'

/-- `ReadGlobalParams(double paramsGlobal[2][N_CENTR][5], filename)`
(src/WriteReadFiles.h, lines 28–50).  `charge0` is the indeterminate
initial value of the uninitialized local `int charge`; `pg0` the
incoming contents of the destination array. -/
def ReadGlobalParams (pg0 : GStore) (charge0 : ℤ) (toks : List ℚ) : GStore :=
  (rgLoop (toks.length + 1) ⟨⟨toks, false⟩, charge0, pg0⟩).pg

/-! ## src/WriteReadFiles.h: per-species parameter I/O (C4, C5) -/

/-- The lines written by
`WriteParams(double par[N_PARTS][N_CENTR][4], double parErr[...][4])`
(src/WriteReadFiles.h, lines 53–70): for each `part` in `PARTS`
(outer) and `centr` in `CENTR` (inner), the line
`part centr par[part][centr][0] par[part][centr][1]
parErr[part][centr][1] par[part][centr][2] parErr[part][centr][2]`. -/
def WriteParamsLines (par parErr : ℤ → ℤ → ℕ → ℚ) : List (List ℚ) :=
  (PARTS.map (fun (part : ℤ) =>
    CENTR.map (fun (centr : ℤ) =>
      [(part : ℚ), (centr : ℚ), par part centr 0,
       par part centr 1, parErr part centr 1,
       par part centr 2, parErr part centr 2]))).flatten

/-- The same file as its token stream. -/
def WriteParamsTokens (par parErr : ℤ → ℤ → ℕ → ℚ) : List ℚ :=
  (WriteParamsLines par parErr).flatten

/-- Mutable state of the per-cell `ReadParams(int part, int centr,
double par[4])`: the stream, the (unused) `int p, c` locals, the
`double par[4]` output array and the `double dummyErr` local. -/
structure RPState where
  s : IStream
  p : ℤ
  c : ℤ
  par : ℕ → ℚ
  dummy : ℚ

/-- One line read of the per-cell `ReadParams`:
`f >> p >> c >> par[0] >> par[1] >> dummyErr >> par[2] >> dummyErr`. -/
def rpLine (st : RPState) : RPState :=
  let (s1, p) := readVar st.s (st.p : ℚ)
  let (s2, c) := readVar s1 (st.c : ℚ)
  let upd : IStream × (ℕ → ℚ) → ℕ → IStream × (ℕ → ℚ) := fun (s, par) k =>
    match readInto s with
    | (s', some t) => (s', Function.update par k t)
    | (s', none) => (s', par)
  let (s3, par3) := upd (s2, st.par) 0
  let (s4, par4) := upd (s3, par3) 1
  let (s5, d5) := readVar s4 st.dummy
  let (s6, par6) := upd (s5, par4) 2
  let (s7, d7) := readVar s6 d5
  ⟨s7, ⌊p⌋, ⌊c⌋, par6, d7⟩

/-- The inner `for (int centr_ : CENTR)` loop of the per-cell
`ReadParams`: read a line, then `if (centr_ == centr) break;`. -/
def rpInner (centr : ℤ) : List ℤ → RPState → RPState
  | [], st => st
  | c_ :: rest, st =>
    let st' := rpLine st
    if c_ = centr then st' else rpInner centr rest st'

/-- The outer `for (int part_ : PARTS)` loop of the per-cell
`ReadParams`: run the inner loop, set `par[3] = masses[part]`
(note: `part`, the argument, not `part_`), then
`if (part_ == part) break;`. -/
def rpOuter (part centr : ℤ) : List ℤ → RPState → RPState
  | [], st => st
  | p_ :: rest, st =>
    let st' := rpInner centr CENTR st
    let st'' : RPState :=
      ⟨st'.s, st'.p, st'.c, Function.update st'.par 3 (massesQ part), st'.dummy⟩
    if p_ = part then st'' else rpOuter part centr rest st''

/-- `ReadParams(int part, int centr, double par[4], filename)`
(src/WriteReadFiles.h, lines 111–131), returning the contents of
`par[4]` after the call; `par0` is its incoming (indeterminate)
contents. -/
def ReadParamsCell (part centr : ℤ) (toks : List ℚ) (par0 : ℕ → ℚ) : ℕ → ℚ :=
  (rpOuter part centr PARTS ⟨⟨toks, false⟩, 0, 0, par0, 0⟩).par

/-! ## Claims C3, C4, C5 -/

/-- **C3.** For every contents of the `paramsGlobal` array, writing it
with `WriteGlobalParams` on a fresh file for charge 0 and then for
charge 1 and reading the file back with `ReadGlobalParams` restores
`paramsGlobal[charge][centr][k]` to the written value for every charge
in {0, 1}, every centrality in `CENTR` and every `k < 5`, whatever the
destination array (`pg0`) and the uninitialized `charge` local
(`charge0`) held before.  The trailing extraction attempt of the
`while` loop fails at end of file and modifies nothing, so no entry is
changed. -/
theorem readGlobalParams_restores_written_values
    (pg pg0 : GStore) (charge0 c ct : ℤ) (k : ℕ)
    (hc : c = 0 ∨ c = 1) (hct : ct ∈ CENTR) (hk : k < 5) :
    ReadGlobalParams pg0 charge0 (globalRoundTripFile pg) c ct k
      = pg c ct k := by
  set_option maxHeartbeats 1000000 in
  set_option maxRecDepth 20000 in
  simp [ReadGlobalParams, rgLoop, rgPass, rgLine, readVarZ, readVar, readInto,
        upd3, globalRoundTripFile, WriteGlobalParams, writeGlobalTokens, CENTR]
  rcases hc with rfl | rfl <;> fin_cases hct <;> interval_cases k <;> norm_num

/-- A sample `paramsGlobal` content with pairwise distinct entries. -/
def pgEx : GStore := fun c ct k => (c * 100 + ct * 10 : ℚ) + k

/-- Witness for C3 at a concrete corner entry. -/
theorem readGlobalParams_restores_written_values_witness :
    ReadGlobalParams (fun _ _ _ => -1) 7 (globalRoundTripFile pgEx) 1 5 4
      = pgEx 1 5 4 :=
  readGlobalParams_restores_written_values pgEx (fun _ _ _ => -1) 7 1 5 4
    (Or.inr rfl) (by decide) (by decide)

/-- Sample per-species parameter tables with pairwise distinct entries:
`parEx part centr k = 1000 + 100*part + 10*centr + k`,
`parErrEx part centr k = 5000 + 100*part + 10*centr + k`. -/
def parEx : ℤ → ℤ → ℕ → ℚ := fun p c k => (1000 + 100 * p + 10 * c : ℚ) + k

/-- See `parEx`. -/
def parErrEx : ℤ → ℤ → ℕ → ℚ := fun p c k => (5000 + 100 * p + 10 * c : ℚ) + k

/-- **C4 (failing-input evaluation).** The per-cell reader
`ReadParams(part, centr, par)` does **not** return the values written
for cell `(part, centr)`: called with `part = 1, centr = 0` on the
file written by `WriteParams`, it returns the constant written for
cell `(0, 1)` (`parEx 0 1 0 = 1010`), not the one written for
`(1, 0)` (`parEx 1 0 0 = 1100`).  The `if (centr_ == centr) break;`
inside the inner loop stops mid-line-block for every earlier particle,
so the file position is misaligned from the second particle onwards
(`par[3] = masses[part]` does hold). -/
theorem readParamsCell_returns_wrong_cell :
    ReadParamsCell 1 0 (WriteParamsTokens parEx parErrEx) (fun _ => 0) 0
        = parEx 0 1 0
      ∧ parEx 0 1 0 ≠ parEx 1 0 0
      ∧ ReadParamsCell 1 0 (WriteParamsTokens parEx parErrEx) (fun _ => 0) 3
        = massesQ 1 := by
  refine ⟨by rfl, by norm_num [parEx], by rfl⟩

/-- **C5.** Every line written by `WriteParams` contains, in order,
the particle index, the centrality index, the fitted constant
(`par[part][centr][0]`), `T` (`par[part][centr][1]`), the `T`-error
(`parErr[part][centr][1]`), `beta` (`par[part][centr][2]`) and the
`beta`-error (`parErr[part][centr][2]`) of one (species, centrality)
cell, and the file holds exactly one such line per `(part, centr)` in
`PARTS × CENTR`, iterated part-major: line `part * 6 + centr` is that
cell's line, and there are exactly 36 lines. -/
theorem writeParams_line_schema (par parErr : ℤ → ℤ → ℕ → ℚ)
    (pi ci : ℕ) (hpi : pi < 6) (hci : ci < 6) :
    (WriteParamsLines par parErr).length = 36 ∧
    (WriteParamsLines par parErr)[pi * 6 + ci]?
      = some [((pi : ℤ) : ℚ), ((ci : ℤ) : ℚ),
              par pi ci 0, par pi ci 1, parErr pi ci 1,
              par pi ci 2, parErr pi ci 2] := by
  constructor
  · simp [WriteParamsLines, PARTS, CENTR]
  · interval_cases pi <;> interval_cases ci <;>
      simp [WriteParamsLines, PARTS, CENTR]

/-- Witness for C5 at `(part, centr) = (1, 2)`. -/
theorem writeParams_line_schema_witness :
    (WriteParamsLines parEx parErrEx).length = 36 ∧
    (WriteParamsLines parEx parErrEx)[8]?
      = some [((1 : ℤ) : ℚ), ((2 : ℤ) : ℚ),
              parEx 1 2 0, parEx 1 2 1, parErrEx 1 2 1,
              parEx 1 2 2, parErrEx 1 2 2] :=
  writeParams_line_schema parEx parErrEx 1 2 (by decide) (by decide)

/-! ## src/BlastWaveFit.h: setParamsForSys (C9) -/

/-- `setParamsForSys(int systematicType, double parResults[4])` from
src/BlastWaveFit.h (lines 6–29).  No case of the `switch` ends in a
`break`, so control entering at label `systematicType` falls through
every later case: case `j` executes iff `1 ≤ systematicType ≤ 6` and
`systematicType ≤ j`.  The bodies in source order are
`parResults[1] *= 0.9`, `parResults[1] *= 1.1`, `parResults[2] *= 0.9`,
`parResults[2] *= 1.1`, `parResults[0] *= 0.9`, `parResults[0] *= 1.1`
(cases 7 and 8 are commented out in the source). -/
def setParamsForSys (t : ℤ) (p : Fin 4 → ℚ) : Fin 4 → ℚ :=
  let hit : ℤ → Prop := fun j => 1 ≤ t ∧ t ≤ j ∧ t ≤ 6
  let p1 := if hit 1 then Function.update p 1 (p 1 * 0.9) else p
  let p2 := if hit 2 then Function.update p1 1 (p1 1 * 1.1) else p1
  let p3 := if hit 3 then Function.update p2 2 (p2 2 * 0.9) else p2
  let p4 := if hit 4 then Function.update p3 2 (p3 2 * 1.1) else p3
  let p5 := if hit 5 then Function.update p4 0 (p4 0 * 0.9) else p4
  if hit 6 then Function.update p5 0 (p5 0 * 1.1) else p5

/-! ## Claim C9 -/

/-- **C9.** `setParamsForSys` with `systematicType = k ∈ {1..6}`
executes every case from label `k` through the last: in particular
with `systematicType = 1` it multiplies `parResults[1]` by 0.9 and
then by 1.1, `parResults[2]` by 0.9 and 1.1, and `parResults[0]` by
0.9 and 1.1, so (for nonzero parameters) all three are modified rather
than exactly one; a `systematicType` matching no case label leaves
`parResults` unchanged. -/
theorem setParamsForSys_falls_through (p : Fin 4 → ℚ)
    (h0 : p 0 ≠ 0) (h1 : p 1 ≠ 0) (h2 : p 2 ≠ 0) :
    (setParamsForSys 1 p 1 = p 1 * 0.9 * 1.1
      ∧ setParamsForSys 1 p 2 = p 2 * 0.9 * 1.1
      ∧ setParamsForSys 1 p 0 = p 0 * 0.9 * 1.1
      ∧ setParamsForSys 1 p 3 = p 3)
    ∧ (setParamsForSys 1 p 0 ≠ p 0
      ∧ setParamsForSys 1 p 1 ≠ p 1
      ∧ setParamsForSys 1 p 2 ≠ p 2)
    ∧ (∀ t : ℤ, 1 ≤ t → t ≤ 6 →
        (setParamsForSys t p 1
            = p 1 * (if t ≤ 1 then 0.9 else 1) * (if t ≤ 2 then 1.1 else 1)
          ∧ setParamsForSys t p 2
            = p 2 * (if t ≤ 3 then 0.9 else 1) * (if t ≤ 4 then 1.1 else 1)
          ∧ setParamsForSys t p 0
            = p 0 * (if t ≤ 5 then 0.9 else 1) * 1.1
          ∧ setParamsForSys t p 3 = p 3)
        ∧ setParamsForSys t p ≠ p)
    ∧ (∀ t : ℤ, ¬ (1 ≤ t ∧ t ≤ 6) → setParamsForSys t p = p) := by
  have hgen : ∀ t : ℤ, 1 ≤ t → t ≤ 6 →
      (setParamsForSys t p 1
          = p 1 * (if t ≤ 1 then 0.9 else 1) * (if t ≤ 2 then 1.1 else 1)
        ∧ setParamsForSys t p 2
          = p 2 * (if t ≤ 3 then 0.9 else 1) * (if t ≤ 4 then 1.1 else 1)
        ∧ setParamsForSys t p 0
          = p 0 * (if t ≤ 5 then 0.9 else 1) * 1.1
        ∧ setParamsForSys t p 3 = p 3) := by
    intro t ht1 ht6
    interval_cases t <;>
      refine ⟨?_, ?_, ?_, ?_⟩ <;>
        simp [setParamsForSys, Function.update]
  have hne : ∀ t : ℤ, 1 ≤ t → t ≤ 6 → setParamsForSys t p ≠ p := by
    intro t ht1 ht6 heq
    have h0' := (hgen t ht1 ht6).2.2.1
    rw [heq] at h0'
    rcases lt_or_le 5 t with h5 | h5
    · rw [if_neg (by omega)] at h0'
      have : (1.1 : ℚ) = 1 := by
        have := mul_left_cancel₀ h0 (by linarith [h0'] : p 0 * 1 = p 0 * (1 * 1.1))
        linarith [this]
      norm_num at this
    · rw [if_pos h5] at h0'
      have : (0.9 * 1.1 : ℚ) = 1 := by
        have h' : p 0 * 1 = p 0 * (0.9 * 1.1) := by rw [mul_one]; linarith [h0']
        have := mul_left_cancel₀ h0 h'
        linarith [this]
      norm_num at this
  have hid : ∀ t : ℤ, ¬ (1 ≤ t ∧ t ≤ 6) → setParamsForSys t p = p := by
    intro t ht
    simp only [setParamsForSys]
    rw [if_neg (by omega), if_neg (by omega), if_neg (by omega),
        if_neg (by omega), if_neg (by omega), if_neg (by omega)]
  refine ⟨?_, ?_, fun t ht1 ht6 => ⟨hgen t ht1 ht6, hne t ht1 ht6⟩, hid⟩
  · have h := hgen 1 (by norm_num) (by norm_num)
    refine ⟨?_, ?_, ?_, h.2.2.2⟩
    · rw [h.1]; norm_num
    · rw [h.2.1]; norm_num
    · rw [h.2.2.1]; norm_num
  · have h := hgen 1 (by norm_num) (by norm_num)
    refine ⟨?_, ?_, ?_⟩
    · rw [h.2.2.1]
      intro hco
      rw [if_pos (by norm_num)] at hco
      have := mul_left_cancel₀ h0 (by linarith [hco] : p 0 * (0.9 * 1.1) = p 0 * 1)
      norm_num at this
    · rw [h.1]
      intro hco
      rw [if_pos (by norm_num), if_pos (by norm_num)] at hco
      have := mul_left_cancel₀ h1 (by linarith [hco] : p 1 * (0.9 * 1.1) = p 1 * 1)
      norm_num at this
    · rw [h.2.1]
      intro hco
      rw [if_pos (by norm_num), if_pos (by norm_num)] at hco
      have := mul_left_cancel₀ h2 (by linarith [hco] : p 2 * (0.9 * 1.1) = p 2 * 1)
      norm_num at this

/-- Witness for C9 on the concrete parameter vector `(2, 3, 5, 7)`. -/
theorem setParamsForSys_falls_through_witness :
    setParamsForSys 1 ![2, 3, 5, 7] 1 = 3 * 0.9 * 1.1
      ∧ setParamsForSys 7 ![2, 3, 5, 7] = ![2, 3, 5, 7] := by
  have h := setParamsForSys_falls_through ![2, 3, 5, 7]
    (by norm_num) (by norm_num) (by norm_num)
  refine ⟨by rw [h.1.1]; norm_num, h.2.2.2 7 (by norm_num)⟩

/-! ## src/BlastWaveFit.h, src/BlastWave.C: GetContourPlots (C7) -/

/-- `const int N_SIGMA = 2;` (src/def.h). -/
def N_SIGMA : ℕ := 2

/-- The attributes of a `TGraph` that `GetContourPlots` touches. -/
structure TGraphAttrs where
  lineColor : ℤ
  fillStyle : ℤ
deriving DecidableEq

/-- The repository state `GetContourPlots` reads and writes: the
global `contour[part][centr][s]` array and the console output (an
`ERROR` line is modelled as its tag together with the three printed
indices). -/
structure ContourState where
  store : ℕ → ℕ → ℕ → Option TGraphAttrs
  log : List (String × ℕ × ℕ × ℕ)

/-- `contour[part][centr][s] = g`. -/
def updContour (st : ℕ → ℕ → ℕ → Option TGraphAttrs) (p c s : ℕ)
    (v : Option TGraphAttrs) : ℕ → ℕ → ℕ → Option TGraphAttrs :=
  fun p' c' s' => if p' = p ∧ c' = c ∧ s' = s then v else st p' c' s'

/-- One iteration of the `for (int s = 1; s < N_SIGMA; s++)` loop of
`GetContourPlots(int part, int centr)` (src/BlastWaveFit.h lines
31–46, src/BlastWave.C lines 6–21): the external
`(TGraph*)gMinuit->Contour(40, 2, 1)` result for this iteration is
`contourRes s`; it is assigned to `contour[part][centr][s]`
unconditionally, then either decorated (non-null) or reported
(`cout << "ERROR " << part << " " << centr << " " << s`).
`gMinuit->SetErrorDef` only configures the external fitter. -/
def contourStep (partColors : ℕ → ℤ) (contourRes : ℕ → Option TGraphAttrs)
    (part centr : ℕ) (st : ContourState) (s : ℕ) : ContourState :=
  match contourRes s with
  | some _ =>
    ⟨updContour st.store part centr s
        (some ⟨partColors part + (centr : ℤ), 0⟩),
      st.log⟩
  | none =>
    ⟨updContour st.store part centr s none,
      st.log ++ [("ERROR", part, centr, s)]⟩

/-- `GetContourPlots(int part, int centr)`: the loop runs over
`s = 1, ..., nSigma - 1` (in the source `nSigma` is the global
`N_SIGMA`). -/
def GetContourPlots (partColors : ℕ → ℤ) (contourRes : ℕ → Option TGraphAttrs)
    (part centr nSigma : ℕ) (st0 : ContourState) : ContourState :=
  (List.range' 1 (nSigma - 1)).foldl
    (contourStep partColors contourRes part centr) st0

/-- Processing sigma indices not containing `s` leaves
`contour[part][centr][s]` unchanged. -/
theorem contourFold_store_not_mem (partColors : ℕ → ℤ)
    (contourRes : ℕ → Option TGraphAttrs) (part centr : ℕ)
    (l : List ℕ) (st : ContourState) (s : ℕ) (hs : s ∉ l) :
    ((l.foldl (contourStep partColors contourRes part centr) st).store
        part centr s)
      = st.store part centr s := by
  induction l generalizing st with
  | nil => rfl
  | cons a rest ih =>
    have hsa : s ≠ a := fun h => hs (h ▸ List.mem_cons_self a rest)
    have hsrest : s ∉ rest := fun h => hs (List.mem_cons_of_mem a h)
    rw [List.foldl_cons, ih _ hsrest]
    rcases h : contourRes a with _ | _ <;>
      simp [contourStep, h, updContour, hsa]

/-- After processing a list of sigma indices containing `s`, the
stored contour at `s` is the (decorated) external result at `s`. -/
theorem contourFold_store_mem (partColors : ℕ → ℤ)
    (contourRes : ℕ → Option TGraphAttrs) (part centr : ℕ)
    (l : List ℕ) (st : ContourState) (s : ℕ) (hs : s ∈ l) :
    ((l.foldl (contourStep partColors contourRes part centr) st).store
        part centr s)
      = (contourRes s).map
          (fun _ => ⟨partColors part + (centr : ℤ), 0⟩) := by
  induction l generalizing st with
  | nil => cases hs
  | cons a rest ih =>
    rw [List.foldl_cons]
    by_cases hmem : s ∈ rest
    · exact ih _ hmem
    · have hsa : s = a := by
        rcases List.mem_cons.mp hs with h | h
        · exact h
        · exact absurd h hmem
      subst hsa
      rw [contourFold_store_not_mem _ _ _ _ _ _ _ hmem]
      rcases h : contourRes s with _ | _ <;>
        simp [contourStep, h, updContour]

/-- The console log only grows. -/
theorem contourFold_log_mono (partColors : ℕ → ℤ)
    (contourRes : ℕ → Option TGraphAttrs) (part centr : ℕ)
    (l : List ℕ) (st : ContourState) (x : String × ℕ × ℕ × ℕ)
    (hx : x ∈ st.log) :
    x ∈ (l.foldl (contourStep partColors contourRes part centr) st).log := by
  induction l generalizing st with
  | nil => exact hx
  | cons a rest ih =>
    rw [List.foldl_cons]
    refine ih _ ?_
    rcases h : contourRes a with _ | _ <;>
      simp [contourStep, h, hx]

/-- A null contour at a processed sigma index leaves an ERROR line. -/
theorem contourFold_log_err (partColors : ℕ → ℤ)
    (contourRes : ℕ → Option TGraphAttrs) (part centr : ℕ)
    (l : List ℕ) (st : ContourState) (s : ℕ) (hs : s ∈ l)
    (hnone : contourRes s = none) :
    ("ERROR", part, centr, s)
      ∈ (l.foldl (contourStep partColors contourRes part centr) st).log := by
  induction l generalizing st with
  | nil => cases hs
  | cons a rest ih =>
    rw [List.foldl_cons]
    by_cases hmem : s ∈ rest
    · exact ih _ hmem
    · have hsa : s = a := by
        rcases List.mem_cons.mp hs with h | h
        · exact h
        · exact absurd h hmem
      subst hsa
      refine contourFold_log_mono _ _ _ _ _ _ _ ?_
      simp [contourStep, hnone]

/-! ## Claim C7 -/

/-- A concrete prior state whose `(0,0,1)` contour cell is non-null. -/
def contourSt0 : ContourState :=
  ⟨fun p c s => if p = 0 ∧ c = 0 ∧ s = 1 then some ⟨5, 7⟩ else none, []⟩

/-- **C7 (counterexample).** The claim that a null `Contour` result
"leaves the stored contour entry untouched" is false: with a prior
non-null entry at `(part, centr, s) = (0, 0, 1)` and the fitter
returning null at `s = 1`, `GetContourPlots 0 0` overwrites the entry
(the assignment `contour[part][centr][s] = (TGraph*)gMinuit->Contour(...)`
happens before the null check), so the stored entry changes from
`some ⟨5, 7⟩` to `none`. -/
theorem getContourPlots_overwrites_entry :
    (fun _ : ℕ => (none : Option TGraphAttrs)) 1 = none
      ∧ (GetContourPlots (fun _ => 0) (fun _ => none) 0 0 N_SIGMA
          contourSt0).store 0 0 1
        ≠ contourSt0.store 0 0 1 := by
  refine ⟨rfl, by decide⟩

/-- **C7 (amended).** For every `(part, centr)` cell and every sigma
index `1 ≤ s < N_SIGMA`, if the fitter's `Contour` call returns a null
graph at `s`, `GetContourPlots` prints a console line containing
"ERROR" and the indices `part`, `centr`, `s`, overwrites the stored
contour entry with the null result, and still processes every other
sigma index (a null contour never aborts the batch): every stored
entry in range ends up equal to the external `Contour` result at its
index, decorated when non-null. -/
theorem getContourPlots_null_logs_error_and_continues
    (partColors : ℕ → ℤ) (contourRes : ℕ → Option TGraphAttrs)
    (part centr nSigma : ℕ) (st0 : ContourState) (s : ℕ)
    (h1 : 1 ≤ s) (h2 : s < nSigma) (hnone : contourRes s = none) :
    ("ERROR", part, centr, s)
        ∈ (GetContourPlots partColors contourRes part centr nSigma st0).log
      ∧ (GetContourPlots partColors contourRes part centr nSigma st0).store
          part centr s = none
      ∧ ∀ s', 1 ≤ s' → s' < nSigma →
          (GetContourPlots partColors contourRes part centr nSigma st0).store
              part centr s'
            = (contourRes s').map
                (fun _ => ⟨partColors part + (centr : ℤ), 0⟩) := by
  have hmem : ∀ s', 1 ≤ s' → s' < nSigma → s' ∈ List.range' 1 (nSigma - 1) := by
    intro s' hs1 hs2
    rw [List.mem_range'_1]
    omega
  refine ⟨?_, ?_, ?_⟩
  · exact contourFold_log_err _ _ _ _ _ _ _ (hmem s h1 h2) hnone
  · rw [GetContourPlots, contourFold_store_mem _ _ _ _ _ _ _ (hmem s h1 h2),
        hnone]
    rfl
  · intro s' hs1 hs2
    exact contourFold_store_mem _ _ _ _ _ _ _ (hmem s' hs1 hs2)

/-- Witness for the amended C7 at `(part, centr) = (2, 3)`, `s = 1`,
with a null contour result. -/
theorem getContourPlots_null_logs_error_witness :
    ("ERROR", 2, 3, 1)
        ∈ (GetContourPlots (fun _ => 0) (fun _ => none) 2 3 N_SIGMA
            contourSt0).log
      ∧ (GetContourPlots (fun _ => 0) (fun _ => none) 2 3 N_SIGMA
          contourSt0).store 2 3 1 = none :=
  ⟨(getContourPlots_null_logs_error_and_continues (fun _ => 0) (fun _ => none)
      2 3 N_SIGMA contourSt0 1 (by decide) (by decide) rfl).1,
    (getContourPlots_null_logs_error_and_continues (fun _ => 0) (fun _ => none)
      2 3 N_SIGMA contourSt0 1 (by decide) (by decide) rfl).2.1⟩

/-! ## src/BlastWaveFit.h: BlastWaveFit::Fit cell skipping (C8) -/

/-- The members of `BlastWaveFit` that `Fit` writes per cell, plus a
log of the cells for which `grSpectra[part][centr]->Fit(...)` was
invoked. -/
structure FitState where
  outParams : ℤ → ℤ → ℕ → ℚ
  outParamsErr : ℤ → ℤ → ℕ → ℚ
  fitted : List (ℤ × ℤ)

/-- `outParams[part][centr][0..3] = src(0..3)` (the `std::copy`). -/
def updCell (st : ℤ → ℤ → ℕ → ℚ) (p c : ℤ) (src : ℕ → ℚ) :
    ℤ → ℤ → ℕ → ℚ :=
  fun p' c' k => if p' = p ∧ c' = c ∧ k < 4 then src k else st p' c' k

/-- One `(part, centr)` iteration of `BlastWaveFit::Fit` for
`initParamsType` 0 or 1 (src/BlastWaveFit.h lines 81–121, and
src/input/BlastWaveFit.h lines 64–106): `readRec part centr` is the
parameter record obtained from file for the cell (`ReadGlobalParams` +
`getGlobalParams` for type 0, the per-cell `ReadParams` for type 1).
If its normalization constant `readRec part centr 0` is 0 the source
executes `continue`, skipping the fit call and the copies into
`outParams`/`outParamsErr`.  Otherwise the external fit runs;
`fitPar`/`fitParErr` are `ifuncx[part][centr]->GetParameters()` /
`GetParErrors()` after it, copied into the output arrays (first four
entries), and the fit invocation is logged.  (`SetParameters`,
`SetParLimits`, `FixParameter`, `SetLineColor` configure the external
`TF1` object and are absorbed into the fit oracle.) -/
def fitCell (readRec fitPar fitParErr : ℤ → ℤ → ℕ → ℚ)
    (st : FitState) (pc : ℤ × ℤ) : FitState :=
  if readRec pc.1 pc.2 0 = 0 then st
  else
    ⟨updCell st.outParams pc.1 pc.2 (fitPar pc.1 pc.2),
     updCell st.outParamsErr pc.1 pc.2 (fitParErr pc.1 pc.2),
     st.fitted ++ [pc]⟩

/-- The `(part, centr)` cells in iteration order of the two nested
loops `for (int part : PARTS) for (int centr : CENTR)`. -/
def fitCells : List (ℤ × ℤ) :=
  (PARTS.map (fun part => CENTR.map (fun centr => (part, centr)))).flatten

/-- `BlastWaveFit::Fit(initParamsType ∈ {0, 1})`, as a transformer of
the output state (the external data loading, fitter configuration and
drawing have no effect on `outParams`/`outParamsErr`). -/
def BlastWaveFit_Fit (readRec fitPar fitParErr : ℤ → ℤ → ℕ → ℚ)
    (st0 : FitState) : FitState :=
  fitCells.foldl (fitCell readRec fitPar fitParErr) st0

/-- Cells other than `(p, c)` never write `outParams[p][c]`;
a skipped `(p, c)` does not either. -/
theorem fitFold_outParams_skip (readRec fitPar fitParErr : ℤ → ℤ → ℕ → ℚ)
    (l : List (ℤ × ℤ)) (st : FitState) (p c : ℤ) (k : ℕ)
    (h0 : readRec p c 0 = 0) :
    (l.foldl (fitCell readRec fitPar fitParErr) st).outParams p c k
        = st.outParams p c k
      ∧ (l.foldl (fitCell readRec fitPar fitParErr) st).outParamsErr p c k
        = st.outParamsErr p c k := by
  induction l generalizing st with
  | nil => exact ⟨rfl, rfl⟩
  | cons a rest ih =>
    rw [List.foldl_cons]
    rcases ih (fitCell readRec fitPar fitParErr st a) with ⟨ih1, ih2⟩
    rw [ih1, ih2]
    by_cases ha : readRec a.1 a.2 0 = 0
    · simp [fitCell, ha]
    · have hne : ¬ (p = a.1 ∧ c = a.2) := by
        rintro ⟨rfl, rfl⟩
        exact ha h0
      simp only [fitCell, if_neg ha]
      constructor <;>
        · simp only [updCell]
          rw [if_neg]
          rintro ⟨hh1, hh2, _⟩
          exact hne ⟨hh1, hh2⟩

/-- The fit log only grows. -/
theorem fitFold_fitted_mono (readRec fitPar fitParErr : ℤ → ℤ → ℕ → ℚ)
    (l : List (ℤ × ℤ)) (st : FitState) (pc : ℤ × ℤ)
    (h : pc ∈ st.fitted) :
    pc ∈ (l.foldl (fitCell readRec fitPar fitParErr) st).fitted := by
  induction l generalizing st with
  | nil => exact h
  | cons a rest ih =>
    rw [List.foldl_cons]
    refine ih _ ?_
    by_cases ha : readRec a.1 a.2 0 = 0 <;> simp [fitCell, ha, h]

/-- A cell is fitted only if it was already logged or its record's
constant is nonzero. -/
theorem fitFold_fitted_src (readRec fitPar fitParErr : ℤ → ℤ → ℕ → ℚ)
    (l : List (ℤ × ℤ)) (st : FitState) (pc : ℤ × ℤ)
    (h : pc ∈ (l.foldl (fitCell readRec fitPar fitParErr) st).fitted) :
    pc ∈ st.fitted ∨ readRec pc.1 pc.2 0 ≠ 0 := by
  induction l generalizing st with
  | nil => exact Or.inl h
  | cons a rest ih =>
    rw [List.foldl_cons] at h
    rcases ih _ h with h' | h'
    · by_cases ha : readRec a.1 a.2 0 = 0
      · simp only [fitCell, if_pos ha] at h'
        exact Or.inl h'
      · simp only [fitCell, if_neg ha, List.mem_append, List.mem_singleton] at h'
        rcases h' with h' | rfl
        · exact Or.inl h'
        · exact Or.inr ha
    · exact Or.inr h'

/-- A cell in the processed list with a nonzero record constant is
fitted. -/
theorem fitFold_fitted_of_mem (readRec fitPar fitParErr : ℤ → ℤ → ℕ → ℚ)
    (l : List (ℤ × ℤ)) (st : FitState) (pc : ℤ × ℤ)
    (hmem : pc ∈ l) (h0 : readRec pc.1 pc.2 0 ≠ 0) :
    pc ∈ (l.foldl (fitCell readRec fitPar fitParErr) st).fitted := by
  induction l generalizing st with
  | nil => cases hmem
  | cons a rest ih =>
    rw [List.foldl_cons]
    by_cases hr : pc ∈ rest
    · exact ih _ hr
    · have hpa : pc = a := by
        rcases List.mem_cons.mp hmem with h | h
        · exact h
        · exact absurd h hr
      subst hpa
      refine fitFold_fitted_mono _ _ _ _ _ _ ?_
      simp [fitCell, if_neg h0]

/-! ## Claim C8 -/

/-- **C8.** In `BlastWaveFit::Fit` with `initParamsType` 0 or 1, every
`(part, centr)` cell whose parameter record read from file has
normalization constant 0 is silently skipped: no fit is invoked for it
(it is never logged, provided it was not logged before the call),
`outParams[part][centr]` and `outParamsErr[part][centr]` keep their
prior contents, and the loop proceeds without aborting — every other
cell of `PARTS × CENTR` whose record constant is nonzero still gets
its fit invoked. -/
theorem blastWaveFit_skips_zero_constant_cells
    (readRec fitPar fitParErr : ℤ → ℤ → ℕ → ℚ) (st0 : FitState)
    (part centr : ℤ) (k : ℕ)
    (h0 : readRec part centr 0 = 0)
    (hnotbefore : (part, centr) ∉ st0.fitted) :
    ((BlastWaveFit_Fit readRec fitPar fitParErr st0).outParams part centr k
        = st0.outParams part centr k
      ∧ (BlastWaveFit_Fit readRec fitPar fitParErr st0).outParamsErr
          part centr k
        = st0.outParamsErr part centr k)
      ∧ (part, centr) ∉ (BlastWaveFit_Fit readRec fitPar fitParErr st0).fitted
      ∧ ∀ pc : ℤ × ℤ, pc ∈ fitCells → readRec pc.1 pc.2 0 ≠ 0 →
          pc ∈ (BlastWaveFit_Fit readRec fitPar fitParErr st0).fitted := by
  refine ⟨fitFold_outParams_skip _ _ _ _ _ _ _ _ h0, ?_, ?_⟩
  · intro hmem
    rcases fitFold_fitted_src _ _ _ _ _ _ hmem with h | h
    · exact hnotbefore h
    · exact h h0
  · intro pc hmem hne
    exact fitFold_fitted_of_mem _ _ _ _ _ _ hmem hne

/-- Witness for C8: with the record constant zero exactly at cell
`(0, 0)`, that cell's outputs stay at their prior value `-1` and the
nonzero cell `(1, 2)` is fitted. -/
theorem blastWaveFit_skips_zero_constant_cells_witness :
    ((BlastWaveFit_Fit (fun p c _ => if p = 0 ∧ c = 0 then 0 else 1)
        (fun _ _ _ => 9) (fun _ _ _ => 9)
        ⟨fun _ _ _ => -1, fun _ _ _ => -1, []⟩).outParams 0 0 0 = -1
      ∧ (1, 2) ∈ (BlastWaveFit_Fit (fun p c _ => if p = 0 ∧ c = 0 then 0 else 1)
          (fun _ _ _ => 9) (fun _ _ _ => 9)
          ⟨fun _ _ _ => -1, fun _ _ _ => -1, []⟩).fitted) := by
  have h := blastWaveFit_skips_zero_constant_cells
    (fun p c _ => if p = 0 ∧ c = 0 then 0 else 1)
    (fun _ _ _ => 9) (fun _ _ _ => 9)
    ⟨fun _ _ _ => -1, fun _ _ _ => -1, []⟩ 0 0 0 (by norm_num)
    (by simp)
  exact ⟨h.1.1, h.2.2 (1, 2) (by decide) (by norm_num)⟩

/-! ## src/def.h SetSpectra and src/input/WriteReadFiles.h loaders
(C6, C10) -/

/-- The slice of a ROOT `TH1D` that `SetSpectra` reads: `GetNbinsX()`
and, per bin number, `GetBinContent`, `GetBinError`, `GetBinCenter`
(ROOT content bins are numbered 1..nbins). -/
structure TH1 where
  nbins : ℕ
  content : ℕ → ℝ
  error : ℕ → ℝ
  center : ℕ → ℝ

/-- One point of a `TGraphErrors(n, x, y, ex, ey)`. -/
structure GPoint where
  x : ℝ
  y : ℝ
  ex : ℝ
  ey : ℝ

/-- The graph built by `SetSpectra(..., "mt")` for one histogram
(src/def.h lines 98–110, src/input/def.h lines 186–199): the loop
`for (int bin = 1; bin < N_BINS; bin++)` fills array slot `bin - 1`,
i.e. slot `j` holds bin `j + 1` for `j < N_BINS - 1`, with
`sp[j] = GetBinContent(j+1)`, `sp_err[j] = GetBinError(j+1)`,
`xerr[j] = 0`, `mT[j] = sqrt(pT^2 + m^2) - m` of
`pT = GetBinCenter(j+1)`; then
`TGraphErrors(N_BINS - 1, mT, sp, xerr, sp_err)` takes those
`N_BINS - 1` slots in order (x, y, ex, ey). -/
noncomputable def setSpectraMtGraph (h : TH1) (mass : ℝ) : List GPoint :=
  (List.range (h.nbins - 1)).map fun j =>
    let pt := h.center (j + 1)
    ⟨Real.sqrt (pt * pt + mass * mass) - mass,
     h.content (j + 1), 0, h.error (j + 1)⟩

/-- The graph built by `ReadFromFile(int part, int systN)`
(src/input/WriteReadFiles.h lines 245–270) for one centrality block:
row `i` of the block is the quadruple `(pT, s, s_e, s_s)` read by
`f >> pT[i] >> s[i] >> s_e[i] >> s_s[i]`, `x_e[i]` was preset to
`0.05`, and the graph is `TGraphErrors(N, mT, s, s_e, x_e)` — so the
third constructor slot (the x-errors) receives `s_e` and the fourth
(the y-errors) receives `x_e`. -/
noncomputable def ReadFromFile_graph (N : ℕ) (data : ℕ → ℕ → ℝ × ℝ × ℝ × ℝ)
    (mass : ℝ) (centr : ℕ) : List GPoint :=
  (List.range N).map fun i =>
    let q := data centr i
    ⟨Real.sqrt (q.1 * q.1 + mass * mass) - mass, q.2.1, q.2.2.1, 0.05⟩

/-- The graph built by `ReadFromFileAuAu` (src/input/WriteReadFiles.h
lines 274–308) for one particle and centrality: row `i` gives `pT` and
per-centrality `(s, s_e)`; particles 2 and 3 have `s` scaled by 10;
the graph is `TGraphErrors(N, mT, s[centr], x_e, s_e[centr])` with
`x_e[i] = 0.05` — x-errors `0.05`, y-errors the statistical errors. -/
noncomputable def ReadFromFileAuAu_graph (N : ℕ) (part : ℕ)
    (pT : ℕ → ℝ) (dat : ℕ → ℕ → ℝ × ℝ) (mass : ℝ) (centr : ℕ) : List GPoint :=
  (List.range N).map fun i =>
    let s := (dat centr i).1 * (if part = 2 ∨ part = 3 then 10 else 1)
    ⟨Real.sqrt (pT i * pT i + mass * mass) - mass,
     s, 0.05, (dat centr i).2⟩

/-! ## Claim C10 -/

/-- **C10.** For `SetSpectra(..., "mt")` the produced graph has
`N_BINS - 1` points, point `j` being built from histogram bin `j + 1`
(bins 1 through `N_BINS - 1`), with x transformed to
`sqrt(pT^2 + m^2) - m` of the bin-center `pT`; the last histogram bin
(bin number `N_BINS`) never contributes: two histograms agreeing on
all bins below `N_BINS` produce the same graph. -/
theorem setSpectraMt_uses_bins_below_last (h h2 : TH1) (mass : ℝ) (j : ℕ)
    (hj : j < h.nbins - 1) (hn : h2.nbins = h.nbins)
    (hagree : ∀ b, b < h.nbins →
      h2.content b = h.content b ∧ h2.error b = h.error b
        ∧ h2.center b = h.center b) :
    (setSpectraMtGraph h mass).length = h.nbins - 1
      ∧ (setSpectraMtGraph h mass)[j]?
        = some ⟨Real.sqrt (h.center (j + 1) * h.center (j + 1) + mass * mass)
                  - mass,
                h.content (j + 1), 0, h.error (j + 1)⟩
      ∧ 1 ≤ j + 1 ∧ j + 1 ≤ h.nbins - 1
      ∧ setSpectraMtGraph h2 mass = setSpectraMtGraph h mass := by
  refine ⟨by simp [setSpectraMtGraph], ?_, by omega, by omega, ?_⟩
  · simp [setSpectraMtGraph, List.getElem?_map, List.getElem?_range, hj]
  · rw [setSpectraMtGraph, setSpectraMtGraph, hn]
    refine List.map_congr_left ?_
    intro b hb
    rw [List.mem_range] at hb
    rcases hagree (b + 1) (by omega) with ⟨hc, he, hx⟩
    simp [hc, he, hx]

/-- A sample three-bin histogram. -/
noncomputable def histEx : TH1 :=
  ⟨3, fun b => (b : ℝ), fun b => 2 * (b : ℝ), fun b => (b : ℝ)⟩

/-- A histogram agreeing with `histEx` except at its last bin (3). -/
noncomputable def histEx' : TH1 :=
  ⟨3, fun b => if b = 3 then 99 else (b : ℝ),
   fun b => if b = 3 then 99 else 2 * (b : ℝ), fun b => (b : ℝ)⟩

/-- Witness for C10 on `histEx`/`histEx'` at point 0. -/
theorem setSpectraMt_uses_bins_below_last_witness :
    (setSpectraMtGraph histEx 0).length = 2
      ∧ (setSpectraMtGraph histEx 0)[0]?
        = some ⟨Real.sqrt (histEx.center 1 * histEx.center 1 + 0 * 0) - 0,
                histEx.content 1, 0, histEx.error 1⟩
      ∧ setSpectraMtGraph histEx' 0 = setSpectraMtGraph histEx 0 := by
  have hagree : ∀ b, b < histEx.nbins →
      histEx'.content b = histEx.content b ∧ histEx'.error b = histEx.error b
        ∧ histEx'.center b = histEx.center b := by
    intro b hb
    dsimp only [histEx, histEx'] at hb ⊢
    refine ⟨by rw [if_neg (by omega)], by rw [if_neg (by omega)], rfl⟩
  have h := setSpectraMt_uses_bins_below_last histEx histEx' 0 0
    (by norm_num [histEx]) rfl hagree
  refine ⟨?_, ?_, h.2.2.2.2⟩
  · rw [h.1]; rfl
  · rw [h.2.1]

/-! ## Claim C6 -/

/-- **C6 (failing-input evaluation).** The claim that every loader
stores the statistical error as the y-error fails for `ReadFromFile`:
its `TGraphErrors(N, mT, s, s_e, x_e)` call passes the statistical
errors `s_e` as x-errors and the preset constant `0.05` (`x_e`, the
horizontal errors, per the source's own comment) as y-errors.  On a
one-row block `(pT, s, s_e, s_s) = (0, 2, 0.7, 0.3)` the produced
point has y-error `0.05 ≠ 0.7` and x-error `0.7`.  (The other two
loaders comply: `setSpectraMtGraph` puts `GetBinError` in `ey`, and
`ReadFromFileAuAu_graph` puts `s_e` in `ey`.) -/
theorem readFromFile_swaps_error_components :
    ((ReadFromFile_graph 1 (fun _ _ => (0, 2, 0.7, 0.3)) 0 0).map GPoint.ey
        = [0.05]
      ∧ (ReadFromFile_graph 1 (fun _ _ => (0, 2, 0.7, 0.3)) 0 0).map GPoint.ex
        = [0.7]
      ∧ (ReadFromFile_graph 1 (fun _ _ => (0, 2, 0.7, 0.3)) 0 0).map GPoint.y
        = [2])
      ∧ (0.05 : ℝ) ≠ 0.7 := by
  refine ⟨⟨?_, ?_, ?_⟩, by norm_num⟩ <;>
    simp [ReadFromFile_graph, List.range_succ]

end MpdBW
